import Mathlib

/-!
Verification development for the GEO_IGT_PIPELINE repository.

The repository's analytic core (src/3.1_spatial_query_analysis.py,
src/3.2_map_service_compar.py) and its orchestrator/CLI configuration
(src/main_igt_spatial_pipeline.py) are shallowly embedded below.

Geometries are modelled as the shapes the sample data and test scenarios
use: 2D points and axis-aligned rectangles ("boxes") with rational
coordinates.  Geometric primitives (`intersectsB`, `withinB`, `geomArea`,
`interArea`, `unionArea`) model the external geometry library's behaviour
on these shapes (DE-9IM semantics on points and boxes; inclusion-exclusion
for the area of a union).  The coordinate-reprojection routine of the
external library is an injected parameter `t : Nat → Nat → Geometry →
Geometry` (source CRS, target CRS, geometry); concrete statements
instantiate it with `reprojectId`, the transformation's behaviour when the
source and target CRS coincide (every collection in the scenarios is
EPSG:4326).
-/

/-- A 2D vector geometry: a point or an axis-aligned rectangle
(`rect xmin ymin xmax ymax`, as produced by `shapely.geometry.box`). -/
inductive Geometry where
  | point : ℚ → ℚ → Geometry
  | rect : ℚ → ℚ → ℚ → ℚ → Geometry
deriving DecidableEq, Repr

/-- Area of a geometry (`geometry.area`): a point has zero area, a box has
width times height (zero when degenerate). -/
def geomArea : Geometry → ℚ
  | .point _ _ => 0
  | .rect a b c d => max 0 (c - a) * max 0 (d - b)

/-- The boolean predicate `g1.intersects(g2)`: the closed shapes share at
least one common point (boundary contact counts). -/
def intersectsB : Geometry → Geometry → Bool
  | .point x y, .point x2 y2 => decide (x = x2 ∧ y = y2)
  | .point x y, .rect a b c d => decide (a ≤ x ∧ x ≤ c ∧ b ≤ y ∧ y ≤ d)
  | .rect a b c d, .point x y => decide (a ≤ x ∧ x ≤ c ∧ b ≤ y ∧ y ≤ d)
  | .rect a b c d, .rect a2 b2 c2 d2 =>
      decide (a ≤ c2 ∧ a2 ≤ c ∧ b ≤ d2 ∧ b2 ≤ d)

/-- The boolean predicate `g1.within(g2)`: g1 lies inside g2 and their
interiors meet (so a point on a box's boundary is not `within` it). -/
def withinB : Geometry → Geometry → Bool
  | .point x y, .point x2 y2 => decide (x = x2 ∧ y = y2)
  | .point x y, .rect a b c d => decide (a < x ∧ x < c ∧ b < y ∧ y < d)
  | .rect _ _ _ _, .point _ _ => false
  | .rect a b c d, .rect a2 b2 c2 d2 =>
      decide (a2 ≤ a ∧ b2 ≤ b ∧ c ≤ c2 ∧ d ≤ d2 ∧ a < c ∧ b < d)

/-- The boolean predicate `g1.contains(g2)`, the converse of `within`. -/
def containsB (g1 g2 : Geometry) : Bool := withinB g2 g1

/-- Area of the intersection `g1.intersection(g2).area`: nonzero only for
two boxes, where it is the clamped overlap of the coordinate intervals. -/
def interArea (g1 g2 : Geometry) : ℚ :=
  match g1, g2 with
  | .rect a b c d, .rect a2 b2 c2 d2 =>
      max 0 (min c c2 - max a a2) * max 0 (min d d2 - max b b2)
  | _, _ => 0

/-- Area of the union `g1.union(g2).area`, by inclusion-exclusion. -/
def unionArea (g1 g2 : Geometry) : ℚ :=
  geomArea g1 + geomArea g2 - interArea g1 g2

/-- An administrative-region record of `gdf_admin`: a region-name
attribute (`province_name`) and a polygon geometry. -/
structure Region where
  province_name : String
  geom : Geometry
deriving DecidableEq, Repr

/-- A land-use record of `gdf_land_use`: a category attribute
(`landuse_type`), a stated `area_ha` attribute (as carried by the sample
data), and a geometry. -/
structure Feature where
  landuse_type : String
  area_ha : ℚ
  geom : Geometry
deriving DecidableEq, Repr

/-- A GeoDataFrame: a CRS tag (EPSG code) and an ordered list of rows. -/
structure GeoDF (α : Type) where
  crs : Nat
  rows : List α
deriving DecidableEq, Repr

/-- Replace a feature's geometry (what a coordinate transformation does to
one row). -/
def mapGeomFeature (t : Geometry → Geometry) (f : Feature) : Feature :=
  { f with geom := t f.geom }

/-- The library call `gdf.to_crs(target)`: reproject every row's geometry
from the frame's CRS to the target CRS (via the injected transformation
`t`) and retag the frame. -/
def to_crs (t : Nat → Nat → Geometry → Geometry) (target : Nat)
    (g : GeoDF Feature) : GeoDF Feature :=
  { crs := target, rows := g.rows.map (mapGeomFeature (t g.crs target)) }

/-- The external library's coordinate transformation in the case exercised
by every concrete scenario: source and target CRS coincide (EPSG:4326), so
the transformation is the identity. -/
def reprojectId : Nat → Nat → Geometry → Geometry := fun _ _ g => g

/-- The inner spatial join `gpd.sjoin(left, right, how='inner',
predicate='intersects')`: each left row is paired with every right row
whose geometry intersects it; left rows with no match are dropped.  Rows
appear in left order, then right order within a left row. -/
def sjoinInner (left : List Feature) (right : List Region) :
    List (Feature × Region) :=
  left.flatMap fun f =>
    (right.filter fun r => intersectsB f.geom r.geom).map fun r => (f, r)

/-- The grouping key of a joined row: `(province_name, landuse_type)`. -/
def keyOf (p : Feature × Region) : String × String :=
  (p.2.province_name, p.1.landuse_type)

/-- The derived measure of a joined row: the code's
`joined.geometry.area / 10000` (which overwrites the stated `area_ha`
attribute). -/
def pairArea (p : Feature × Region) : ℚ := geomArea p.1.geom / 10000

/-- Lexicographic order on grouping keys (pandas sorts group keys). -/
def keyLe (k1 k2 : String × String) : Prop :=
  k1.1 < k2.1 ∨ (k1.1 = k2.1 ∧ k1.2 ≤ k2.2)

instance : DecidableRel keyLe := fun k1 k2 => by
  unfold keyLe; infer_instance

/-- The distinct grouping keys of a list of keyed values, in sorted order
(as pandas `groupby` emits them). -/
def groupKeys (ps : List ((String × String) × ℚ)) :
    List (String × String) :=
  List.insertionSort keyLe (ps.map Prod.fst).dedup

/-- Sum of the values of a keyed list over one key's fiber. -/
def fiberSum (ps : List ((String × String) × ℚ)) (k : String × String) :
    ℚ :=
  ((ps.filter fun p => p.1 = k).map Prod.snd).sum

/-- The pandas `groupby([...]).sum().reset_index()`: one row per distinct
key, carrying the sum of the values with that key. -/
def groupbySum (ps : List ((String × String) × ℚ)) :
    List ((String × String) × ℚ) :=
  (groupKeys ps).map fun k => (k, fiberSum ps k)

/-- The aggregation of `analyze_polygonal_overlap` after the feature layer
has been aligned to the admin layer's CRS: spatial join, derived area
column, group-and-sum. -/
def analyzeAligned (regions : List Region) (feats : List Feature) :
    List ((String × String) × ℚ) :=
  groupbySum ((sjoinInner feats regions).map fun p => (keyOf p, pairArea p))

/-- `analyze_polygonal_overlap(gdf_admin, gdf_land_use)` from
src/3.1_spatial_query_analysis.py: reproject the land-use layer onto the
admin layer's CRS, inner spatial join on `intersects`, compute
`area_ha = geometry.area / 10000`, then group by
`(province_name, landuse_type)` and sum. -/
def analyze_polygonal_overlap (t : Nat → Nat → Geometry → Geometry)
    (gdf_admin : GeoDF Region) (gdf_land_use : GeoDF Feature) :
    List ((String × String) × ℚ) :=
  let land := to_crs t gdf_admin.crs gdf_land_use
  analyzeAligned gdf_admin.rows land.rows

/-- Python runtime errors surfaced by the embedded functions: the
`UnboundLocalError` a read of a never-assigned local raises, and the
`InvalidArgument`-style error the spec describes (carrying the offending
value). -/
inductive PyError where
  | unboundLocal : String → PyError
  | invalidArgument : String → PyError
deriving DecidableEq, Repr

/-- `perform_spatial_query(gdf, target_geometry, operation)` from
src/3.1_spatial_query_analysis.py: an if/elif/elif chain assigns the
boolean mask; there is no else branch, so an unrecognized operation leaves
`mask` unassigned and the final `gdf[mask]` raises UnboundLocalError. -/
def perform_spatial_query (gdf : List Feature) (target_geometry : Geometry)
    (operation : String := "intersects") : Except PyError (List Feature) :=
  let mask : Option (Feature → Bool) :=
    if operation = "intersects" then
      some fun r => intersectsB r.geom target_geometry
    else if operation = "within" then
      some fun r => withinB r.geom target_geometry
    else if operation = "contains" then
      some fun r => containsB r.geom target_geometry
    else none
  match mask with
  | some m => .ok (gdf.filter m)
  | none => .error (.unboundLocal "mask")

/-- Fetch errors of the external geocoding collaborator. -/
inductive FetchError where
  | networkFailure : FetchError
  | noMatch : FetchError
  | rateLimited : FetchError
deriving DecidableEq, Repr

/-- The IoU line of `compare_with_google_maps` in
src/3.2_map_service_compar.py:
`intersection_area / union_area if union_area > 0 else 0`. -/
def iou_score (your_data_geometry google_geom : Geometry) : ℚ :=
  if 0 < unionArea your_data_geometry google_geom then
    interArea your_data_geometry google_geom /
      unionArea your_data_geometry google_geom
  else 0

/-- Modelled from the spec: the geometry-extraction step of
`compare_with_google_maps` is elided in the source ("... (geometry
extraction logic)"), so per the spec the resolution of a place name to a
reference geometry is an injected dependency returning either a geometry
or a fetch error; a fetch error propagates to the caller.  The IoU
computation on a successfully fetched geometry is `iou_score`, taken from
the source. -/
def compare_with_google_maps (fetchResult : Except FetchError Geometry)
    (your_data_geometry : Geometry) : Except FetchError (ℚ × Geometry) :=
  match fetchResult with
  | .error e => .error e
  | .ok google_geom =>
      .ok (iou_score your_data_geometry google_geom, google_geom)

/-- A Python configuration value: string, integer, boolean, or nested
mapping (ordered key/value list, as a Python dict). -/
inductive CVal where
  | s : String → CVal
  | n : Int → CVal
  | b : Bool → CVal
  | dict : List (String × CVal) → CVal

/-- The `default_config` dictionary of `main_execution_pipeline` in
src/main_igt_spatial_pipeline.py. -/
def default_config : List (String × CVal) :=
  [("database", .dict
      [("host", .s "localhost"), ("port", .n 5432),
       ("database", .s "igt_db"), ("user", .s "postgres"),
       ("password", .s "admin123")]),
   ("use_sample_data", .b true),
   ("analysis", .dict
      [("target_province", .s "JK"), ("connection_radius_km", .n 100),
       ("place_name", .s "Jakarta, Indonesia")])]

/-- Python `base.update(upd)` on dicts: every top-level key of `upd`
replaces the corresponding entry of `base` wholesale (keeping `base`'s key
order), and keys new to `base` are appended in `upd` order. -/
def dictUpdate (base upd : List (String × CVal)) :
    List (String × CVal) :=
  (base.map fun kv =>
    (kv.1,
     match upd.find? (fun kv2 => kv2.1 == kv.1) with
     | some kv2 => kv2.2
     | none => kv.2))
  ++ upd.filter fun kv2 => !(base.any fun kv => kv.1 == kv2.1)

/-- The configuration merge of `main_execution_pipeline`:
`if config: default_config.update(config)`, then use the result. -/
def main_config_merge (config : Option (List (String × CVal))) :
    List (String × CVal) :=
  match config with
  | some c => dictUpdate default_config c
  | none => default_config

/-- First-match lookup of a top-level key in a configuration dict. -/
def lookupC (l : List (String × CVal)) (k : String) : Option CVal :=
  (l.find? fun kv => kv.1 == k).map Prod.snd

/-- Lookup of a nested key under a top-level key: returns `none` when the
top-level value is absent or not a nested mapping. -/
def lookupNested (l : List (String × CVal)) (k1 k2 : String) :
    Option CVal :=
  match lookupC l k1 with
  | some (.dict entries) => lookupC entries k2
  | _ => none

/-- The `my_config` dictionary built in the `__main__` block of
src/main_igt_spatial_pipeline.py from the parsed arguments:
`use_sample_data` is `args.sample_data or True`, and `analysis` is built
from `args.province`. -/
def build_my_config (sample_data : Bool) (province : String) :
    List (String × CVal) :=
  [("use_sample_data", .b (sample_data || true)),
   ("analysis", .dict
      [("target_province", .s province),
       ("connection_radius_km", .n 150),
       ("place_name", .s (if province = "JI" then "Surabaya, Indonesia"
                          else "Jakarta, Indonesia"))])]

/-- Total of the summed measures of a summary. -/
def totalSum (summary : List ((String × String) × ℚ)) : ℚ :=
  (summary.map Prod.snd).sum

/-- First-match lookup of a grouping key in a summary. -/
def lookupSummary (summary : List ((String × String) × ℚ))
    (k : String × String) : Option ℚ :=
  (summary.find? fun row => decide (row.1 = k)).map Prod.snd

/-! Generic lemmas about the grouping machinery. -/

/-- Membership in the sorted distinct keys is membership among the keys. -/
lemma mem_groupKeys {ps : List ((String × String) × ℚ)}
    {k : String × String} : k ∈ groupKeys ps ↔ k ∈ ps.map Prod.fst := by
  unfold groupKeys
  rw [List.mem_insertionSort, List.mem_dedup]

/-- The sorted distinct keys carry no duplicates. -/
lemma nodup_groupKeys (ps : List ((String × String) × ℚ)) :
    (groupKeys ps).Nodup :=
  (List.perm_insertionSort keyLe _).nodup_iff.mpr (List.nodup_dedup _)

/-- Looking a present key up in a per-key table built by mapping. -/
lemma lookupSummary_map_of_mem (f : String × String → ℚ)
    {ks : List (String × String)} {k : String × String} (h : k ∈ ks) :
    lookupSummary (ks.map fun k2 => (k2, f k2)) k = some (f k) := by
  induction ks with
  | nil => cases h
  | cons k1 ks ih =>
    by_cases hk : k1 = k
    · subst hk
      simp [lookupSummary, List.find?_cons_of_pos]
    · rcases List.mem_cons.mp h with h1 | h1
      · exact absurd h1.symm hk
      · have := ih h1
        simp only [lookupSummary, List.map_cons] at this ⊢
        rw [List.find?_cons_of_neg _ (by simpa using hk)]
        exact this

/-- Looking an absent key up in a per-key table built by mapping. -/
lemma lookupSummary_map_of_not_mem (f : String × String → ℚ)
    {ks : List (String × String)} {k : String × String} (h : k ∉ ks) :
    lookupSummary (ks.map fun k2 => (k2, f k2)) k = none := by
  induction ks with
  | nil => rfl
  | cons k1 ks ih =>
    have h1 : k1 ≠ k := fun e => h (e ▸ List.mem_cons_self k1 ks)
    have h2 : k ∉ ks := fun e => h (List.mem_cons_of_mem _ e)
    simp only [lookupSummary, List.map_cons] at ih ⊢
    rw [List.find?_cons_of_neg _ (by simpa using h1)]
    exact ih h2

/-- Characterization of `groupbySum` through lookup: a key present among
the input pairs maps to its fiber sum, an absent key is absent. -/
lemma lookupSummary_groupbySum (ps : List ((String × String) × ℚ))
    (k : String × String) :
    lookupSummary (groupbySum ps) k =
      if k ∈ ps.map Prod.fst then some (fiberSum ps k) else none := by
  by_cases h : k ∈ ps.map Prod.fst
  · rw [if_pos h]
    exact lookupSummary_map_of_mem (fiberSum ps) (mem_groupKeys.mpr h)
  · rw [if_neg h]
    exact lookupSummary_map_of_not_mem (fiberSum ps)
      (fun e => h (mem_groupKeys.mp e))

/-- Splitting a mapped sum along a boolean filter. -/
lemma sum_map_filter_split {α : Type} (p : α → Bool) (f : α → ℚ)
    (l : List α) :
    ((l.filter p).map f).sum + ((l.filter fun a => !(p a)).map f).sum =
      (l.map f).sum := by
  induction l with
  | nil => simp
  | cons a l ih =>
    by_cases hp : p a
    · simp only [List.filter_cons, hp, if_pos, Bool.not_true,
        Bool.false_eq_true, if_false, List.map_cons, List.sum_cons]
      rw [add_assoc, ih]
    · simp only [List.filter_cons, hp, Bool.false_eq_true, if_false,
        Bool.not_false, if_pos, List.map_cons, List.sum_cons]
      rw [add_left_comm, ih]

/-- Summing the fiber sums over a duplicate-free covering key list gives
the total of all values. -/
lemma sum_fiberSum (ks : List (String × String)) (hnd : ks.Nodup)
    (ps : List ((String × String) × ℚ))
    (hcov : ∀ p ∈ ps, p.1 ∈ ks) :
    (ks.map (fiberSum ps)).sum = (ps.map Prod.snd).sum := by
  induction ks generalizing ps with
  | nil =>
    have : ps = [] :=
      List.eq_nil_iff_forall_not_mem.mpr fun p hp => by cases hcov p hp
    subst this; rfl
  | cons k ks ih =>
    have hknot : k ∉ ks := (List.nodup_cons.mp hnd).1
    have hnd2 : ks.Nodup := (List.nodup_cons.mp hnd).2
    set ps2 := ps.filter (fun p => !(decide (p.1 = k))) with hps2
    have hrest : ∀ k2 ∈ ks, fiberSum ps k2 = fiberSum ps2 k2 := by
      intro k2 hk2
      have hne : k2 ≠ k := fun e => hknot (e ▸ hk2)
      unfold fiberSum
      rw [hps2, List.filter_filter]
      congr 1
      congr 1
      apply List.filter_congr
      intro p _
      by_cases hpk : p.1 = k2
      · simp [hpk, hne]
      · simp [hpk]
    have hcov2 : ∀ p ∈ ps2, p.1 ∈ ks := by
      intro p hp
      have hmem := List.mem_of_mem_filter hp
      have hprop := List.of_mem_filter hp
      rcases List.mem_cons.mp (hcov p hmem) with h1 | h1
      · rw [h1] at hprop; simp at hprop
      · exact h1
    calc (List.map (fiberSum ps) (k :: ks)).sum
        = fiberSum ps k + (ks.map (fiberSum ps)).sum := by
          simp [List.map_cons]
      _ = fiberSum ps k + (ks.map (fiberSum ps2)).sum := by
          rw [List.map_congr_left hrest]
      _ = fiberSum ps k + (ps2.map Prod.snd).sum := by
          rw [ih hnd2 ps2 hcov2]
      _ = (ps.map Prod.snd).sum := by
          unfold fiberSum
          rw [hps2]
          exact sum_map_filter_split (fun p => decide (p.1 = k))
            Prod.snd ps

/-- The total of a grouped summary equals the total of the raw values. -/
lemma totalSum_groupbySum (ps : List ((String × String) × ℚ)) :
    totalSum (groupbySum ps) = (ps.map Prod.snd).sum := by
  unfold totalSum groupbySum
  rw [List.map_map]
  have : (Prod.snd ∘ fun k => (k, fiberSum ps k)) = fiberSum ps := rfl
  rw [this]
  exact sum_fiberSum (groupKeys ps) (nodup_groupKeys ps) ps
    (fun p hp => mem_groupKeys.mpr (List.mem_map_of_mem Prod.fst hp))

/-- A geometry `within` another also `intersects` it. -/
lemma withinB_intersectsB {g1 g2 : Geometry}
    (h : withinB g1 g2 = true) : intersectsB g1 g2 = true := by
  cases g1 with
  | point x y =>
    cases g2 with
    | point x2 y2 => simpa [withinB, intersectsB] using h
    | rect a b c d =>
      simp only [withinB, decide_eq_true_eq] at h
      simp only [intersectsB, decide_eq_true_eq]
      exact ⟨le_of_lt h.1, le_of_lt h.2.1, le_of_lt h.2.2.1,
        le_of_lt h.2.2.2⟩
  | rect a b c d =>
    cases g2 with
    | point x2 y2 => simp [withinB] at h
    | rect a2 b2 c2 d2 =>
      simp only [withinB, decide_eq_true_eq] at h
      simp only [intersectsB, decide_eq_true_eq]
      obtain ⟨h1, h2, h3, h4, h5, h6⟩ := h
      exact ⟨by linarith, by linarith, by linarith, by linarith⟩

/-- A spatial join against no regions is empty. -/
lemma sjoinInner_nil_right (feats : List Feature) :
    sjoinInner feats [] = [] := by
  simp [sjoinInner]

/-- A feature intersecting no region contributes nothing to the join. -/
lemma sjoinInner_cons_no_match {f : Feature} {regions : List Region}
    (h : ∀ r ∈ regions, intersectsB f.geom r.geom = false)
    (feats : List Feature) :
    sjoinInner (f :: feats) regions = sjoinInner feats regions := by
  unfold sjoinInner
  rw [List.flatMap_cons]
  rw [List.filter_eq_nil_iff.mpr fun r hr => by simp [h r hr]]
  rfl

/-! Concrete scenario data from the spec's testable properties. -/

/-- The Jakarta admin region of the concrete scenario:
bbox [106.5, -6.4, 107.0, -6.1] named "DKI Jakarta". -/
def jakartaRegion : Region :=
  { province_name := "DKI Jakarta",
    geom := .rect (106.5 : ℚ) (-6.4 : ℚ) (107.0 : ℚ) (-6.1 : ℚ) }

/-- The land-use point of the concrete scenario: a point at (106.7, -6.2)
categorized "Urban" with stated area 20 ha. -/
def urbanPointFeature : Feature :=
  { landuse_type := "Urban", area_ha := 20,
    geom := .point (106.7 : ℚ) (-6.2 : ℚ) }

/-- A region R covering the two Forest features below. -/
def regionR : Region :=
  { province_name := "R", geom := .rect 0 0 100000 100000 }

/-- A second region with the same extent as `regionR`, for the
multiple-regions join scenario. -/
def regionR2 : Region :=
  { province_name := "R2", geom := .rect 0 0 100000 100000 }

/-- Forest feature F1, whose geometry (a 1000 x 1000 box) has area
1,000,000, i.e. 100 ha. -/
def forestF1 : Feature :=
  { landuse_type := "Forest", area_ha := 100, geom := .rect 0 0 1000 1000 }

/-- Forest feature F2, whose geometry (a 1000 x 500 box) has area
500,000, i.e. 50 ha. -/
def forestF2 : Feature :=
  { landuse_type := "Forest", area_ha := 50, geom := .rect 0 0 1000 500 }

/-- A caller override for the orchestrator's configuration merge: an
`analysis` section repeating only `target_province`. -/
def analysisOverride : List (String × CVal) :=
  [("analysis", .dict [("target_province", .s "JB")])]

/-! Further generic lemmas. -/

/-- The keys of a grouped summary are its sorted distinct input keys. -/
lemma map_fst_groupbySum (ps : List ((String × String) × ℚ)) :
    (groupbySum ps).map Prod.fst = groupKeys ps := by
  unfold groupbySum
  rw [List.map_map]
  have h : (Prod.fst ∘ fun k : String × String => (k, fiberSum ps k)) =
      id := rfl
  rw [h, List.map_id]

/-- Summing a constant over a list. -/
lemma sum_map_const_q {α : Type} (l : List α) (c : ℚ) :
    ((l.map fun _ => c).sum = l.length * c) := by
  induction l with
  | nil => simp
  | cons a l ih =>
    simp only [List.map_cons, List.sum_cons, List.length_cons, ih]
    push_cast
    ring

/-- Summing over a flattened list of lists. -/
lemma sum_flatMap_q {α : Type} (l : List α) (g : α → List ℚ) :
    (l.flatMap g).sum = (l.map fun a => (g a).sum).sum := by
  induction l with
  | nil => simp
  | cons a l ih => simp [List.flatMap_cons, ih]

/-- The matched (feature, region) pairs of the aggregation, after the
reprojection step: the inner spatial join on `intersects`. -/
def matchedPairs (t : Nat → Nat → Geometry → Geometry)
    (gdf_admin : GeoDF Region) (gdf_land_use : GeoDF Feature) :
    List (Feature × Region) :=
  sjoinInner (to_crs t gdf_admin.crs gdf_land_use).rows gdf_admin.rows

/-- C1: the claim reads the summary's summed measure off the features'
stated `area_ha` attributes, predicting [("DKI Jakarta","Urban",20.0)]
for the Jakarta point scenario.  The code instead overwrites `area_ha`
with `geometry.area / 10000`, and a point's geometry area is 0, so the
summary row carries 0, not 20: the claim is false at this input. -/
theorem C1_aggregate_scenarios_cex :
    analyze_polygonal_overlap reprojectId
      ⟨4326, [jakartaRegion]⟩ ⟨4326, [urbanPointFeature]⟩ =
        [(("DKI Jakarta", "Urban"), 0)] ∧
    ((0 : ℚ) ≠ 20 ∧ urbanPointFeature.area_ha = 20) := by
  refine ⟨?_, by norm_num, by norm_num [urbanPointFeature]⟩
  norm_num [analyze_polygonal_overlap, analyzeAligned, to_crs, sjoinInner,
    mapGeomFeature, reprojectId, intersectsB, groupbySum, groupKeys,
    fiberSum, keyOf, pairArea, geomArea, jakartaRegion, urbanPointFeature,
    List.insertionSort, List.orderedInsert]

/-- C1 (amended): the summed measure is the geometry-derived hectare area
(`geometry.area / 10000`), not the stated `area_ha` attribute.  The
Jakarta point scenario therefore yields exactly
[("DKI Jakarta","Urban",0.0)] (a point has zero geometry area), and the
one-region scenario with two Forest features whose geometries measure
100 ha and 50 ha yields exactly the single row (R, "Forest", 150). -/
theorem C1_aggregate_scenarios_geom_area :
    analyze_polygonal_overlap reprojectId
      ⟨4326, [jakartaRegion]⟩ ⟨4326, [urbanPointFeature]⟩ =
        [(("DKI Jakarta", "Urban"), 0)] ∧
    analyze_polygonal_overlap reprojectId
      ⟨4326, [regionR]⟩ ⟨4326, [forestF1, forestF2]⟩ =
        [(("R", "Forest"), 150)] := by
  constructor <;>
  norm_num [analyze_polygonal_overlap, analyzeAligned, to_crs, sjoinInner,
    mapGeomFeature, reprojectId, intersectsB, groupbySum, groupKeys,
    fiberSum, keyOf, pairArea, geomArea, jakartaRegion, urbanPointFeature,
    regionR, forestF1, forestF2, List.insertionSort, List.orderedInsert]

/-- C2: the claim predicts an InvalidArgument error naming the offending
selector.  At the unrecognized selector "touches" the code instead raises
the UnboundLocalError of the never-assigned `mask` local, an error that
does not name the selector: the claim is false at this input. -/
theorem C2_unrecognized_predicate_cex :
    perform_spatial_query [urbanPointFeature] (Geometry.point 0 0)
      "touches" = .error (.unboundLocal "mask") ∧
    PyError.unboundLocal "mask" ≠ PyError.invalidArgument "touches" := by
  exact ⟨rfl, by decide⟩

/-- C2 (amended): every predicate selector outside
{intersects, within, contains} makes `perform_spatial_query` fail — there
is no fallback to a default predicate — but with the UnboundLocalError of
the unassigned `mask` local, which does not name the offending value. -/
theorem C2_unrecognized_predicate_fails (gdf : List Feature)
    (g : Geometry) (op : String) (h1 : op ≠ "intersects")
    (h2 : op ≠ "within") (h3 : op ≠ "contains") :
    perform_spatial_query gdf g op = .error (.unboundLocal "mask") := by
  simp [perform_spatial_query, h1, h2, h3]

/-- Witness for C2 (amended) at the selector "touches". -/
theorem C2_unrecognized_predicate_fails_witness :
    perform_spatial_query [] (Geometry.point 0 0) "touches" =
      .error (.unboundLocal "mask") :=
  C2_unrecognized_predicate_fails [] (Geometry.point 0 0) "touches"
    (by decide) (by decide) (by decide)

/-- C3: for every pair of input collections (and every injected
coordinate transformation), the aggregation first reprojects the feature
layer onto the admin layer's CRS and then works on the aligned layers; its
rows have pairwise-distinct (region name, category) keys; a key appears
iff some matched (feature, region) pair carries it; and the value at a
present key is the sum over that key's matched pairs of the feature's
geometry area divided by 10,000. -/
theorem C3_aggregate_reproject_group_sum
    (t : Nat → Nat → Geometry → Geometry) (gdf_admin : GeoDF Region)
    (gdf_land_use : GeoDF Feature) (key : String × String) :
    analyze_polygonal_overlap t gdf_admin gdf_land_use =
      analyzeAligned gdf_admin.rows
        (to_crs t gdf_admin.crs gdf_land_use).rows
  ∧ ((analyze_polygonal_overlap t gdf_admin gdf_land_use).map
      Prod.fst).Nodup
  ∧ (key ∈ (analyze_polygonal_overlap t gdf_admin gdf_land_use).map
        Prod.fst ↔
      key ∈ (matchedPairs t gdf_admin gdf_land_use).map keyOf)
  ∧ lookupSummary (analyze_polygonal_overlap t gdf_admin gdf_land_use)
      key =
      (if key ∈ (matchedPairs t gdf_admin gdf_land_use).map keyOf then
        some ((((matchedPairs t gdf_admin gdf_land_use).filter fun p =>
          decide (keyOf p = key)).map pairArea).sum)
      else none) := by
  have hps : analyze_polygonal_overlap t gdf_admin gdf_land_use =
      groupbySum ((matchedPairs t gdf_admin gdf_land_use).map
        fun p => (keyOf p, pairArea p)) := rfl
  set ps := (matchedPairs t gdf_admin gdf_land_use).map
    fun p => (keyOf p, pairArea p) with hpsdef
  have hfst : ps.map Prod.fst =
      (matchedPairs t gdf_admin gdf_land_use).map keyOf := by
    rw [hpsdef, List.map_map]
    rfl
  refine ⟨rfl, ?_, ?_, ?_⟩
  · rw [hps, map_fst_groupbySum]
    exact nodup_groupKeys ps
  · rw [hps, map_fst_groupbySum]
    rw [mem_groupKeys, hfst]
  · rw [hps, lookupSummary_groupbySum, hfst]
    by_cases h : key ∈ (matchedPairs t gdf_admin gdf_land_use).map keyOf
    · rw [if_pos h, if_pos h]
      congr 1
      unfold fiberSum
      rw [hpsdef, List.filter_map, List.map_map]
      rfl
    · rw [if_neg h, if_neg h]

/-- C4: the join has inner semantics — a feature intersecting no admin
region contributes nothing to the summary — and a feature is counted once
per intersecting region: the summary's total is the sum, over features,
of (number of intersecting regions) x (geometry area / 10,000).  With two
regions both covering one feature the total is twice the feature's own
hectare area, exceeding the feature layer's raw total. -/
theorem C4_join_inner_and_multicount (regions : List Region)
    (feats : List Feature) (f : Feature) :
    ((∀ r ∈ regions, intersectsB f.geom r.geom = false) →
      analyzeAligned regions (f :: feats) = analyzeAligned regions feats)
  ∧ totalSum (analyzeAligned regions feats) =
      (feats.map fun f2 =>
        ((regions.countP fun r => intersectsB f2.geom r.geom : ℕ) : ℚ) *
          (geomArea f2.geom / 10000)).sum
  ∧ totalSum (analyzeAligned [regionR, regionR2] [forestF1]) =
      2 * (geomArea forestF1.geom / 10000)
  ∧ geomArea forestF1.geom / 10000 <
      totalSum (analyzeAligned [regionR, regionR2] [forestF1]) := by
  have hb : ∀ (rs : List Region) (fs : List Feature),
      totalSum (analyzeAligned rs fs) =
        (fs.map fun f2 =>
          ((rs.countP fun r => intersectsB f2.geom r.geom : ℕ) : ℚ) *
            (geomArea f2.geom / 10000)).sum := by
    intro rs fs
    unfold analyzeAligned
    rw [totalSum_groupbySum, List.map_map]
    have h1 : (Prod.snd ∘ fun p : Feature × Region =>
        (keyOf p, pairArea p)) = pairArea := rfl
    rw [h1]
    unfold sjoinInner
    rw [List.map_flatMap, sum_flatMap_q]
    congr 1
    apply List.map_congr_left
    intro f2 _
    rw [List.map_map]
    have h2 : (pairArea ∘ fun r : Region => (f2, r)) =
        fun _ => geomArea f2.geom / 10000 := rfl
    rw [h2, sum_map_const_q, List.countP_eq_length_filter]
  refine ⟨?_, hb regions feats, ?_, ?_⟩
  · intro h
    unfold analyzeAligned
    rw [sjoinInner_cons_no_match h]
  · rw [hb]
    norm_num [List.countP_cons, intersectsB, geomArea, regionR,
      regionR2, forestF1]
  · rw [hb]
    norm_num [List.countP_cons, intersectsB, geomArea, regionR,
      regionR2, forestF1]

/-- Witness for C4 at a feature far from the single region, which indeed
contributes nothing to the summary. -/
theorem C4_join_inner_and_multicount_witness :
    analyzeAligned [jakartaRegion]
      [{ landuse_type := "Water", area_ha := 5,
         geom := .point 0 0 }, urbanPointFeature] =
      analyzeAligned [jakartaRegion] [urbanPointFeature] :=
  (C4_join_inner_and_multicount [jakartaRegion] [urbanPointFeature]
    { landuse_type := "Water", area_ha := 5, geom := .point 0 0 }).1
    (by norm_num [jakartaRegion, intersectsB])

/-- C5: for every pair of geometries the similarity score is
intersection area over union area, guarded so that a zero union area
yields exactly 0; the computation is total, never a division-by-zero
failure. -/
theorem C5_iou_guarded_division (gA gB : Geometry) :
    (0 < unionArea gA gB →
      iou_score gA gB = interArea gA gB / unionArea gA gB)
  ∧ (unionArea gA gB = 0 → iou_score gA gB = 0) := by
  constructor
  · intro h
    rw [iou_score, if_pos h]
  · intro h
    rw [iou_score, if_neg]
    rw [h]
    exact lt_irrefl 0

/-- Witness for C5 at two overlapping unit-area boxes (positive union)
and at two degenerate point geometries (zero union). -/
theorem C5_iou_guarded_division_witness :
    iou_score (.rect 0 0 2 2) (.rect 1 1 3 3) =
      interArea (.rect 0 0 2 2) (.rect 1 1 3 3) /
        unionArea (.rect 0 0 2 2) (.rect 1 1 3 3)
  ∧ iou_score (.point 0 0) (.point 1 1) = 0 :=
  ⟨(C5_iou_guarded_division (.rect 0 0 2 2) (.rect 1 1 3 3)).1
      (by norm_num [unionArea, interArea, geomArea]),
   (C5_iou_guarded_division (.point 0 0) (.point 1 1)).2
      (by norm_num [unionArea, interArea, geomArea])⟩

/-- C6: when the injected geocoding dependency reports a fetch error, the
Similarity Scorer returns that same error to its caller; its result is
never a success, so no score is produced from a substituted geometry. -/
theorem C6_fetch_error_propagates (e : FetchError) (g : Geometry) :
    compare_with_google_maps (.error e) g = .error e
  ∧ (compare_with_google_maps (.error e) g).isOk = false :=
  ⟨rfl, rfl⟩

/-- C7: for each recognized predicate selector the query returns exactly
the filtered subsequence of the input records — the records whose
geometry satisfies the predicate against the target, in original order
(a sublist of the input) — and when the target contains every input
geometry, the `intersects` query returns the full input in order. -/
theorem C7_filter_subsequence (gdf : List Feature) (g : Geometry) :
    perform_spatial_query gdf g "intersects" =
      .ok (gdf.filter fun r => intersectsB r.geom g)
  ∧ perform_spatial_query gdf g "within" =
      .ok (gdf.filter fun r => withinB r.geom g)
  ∧ perform_spatial_query gdf g "contains" =
      .ok (gdf.filter fun r => containsB r.geom g)
  ∧ (gdf.filter fun r => intersectsB r.geom g).Sublist gdf
  ∧ ((∀ r ∈ gdf, withinB r.geom g = true) →
      perform_spatial_query gdf g "intersects" = .ok gdf) := by
  refine ⟨by simp [perform_spatial_query], by simp [perform_spatial_query],
    by simp [perform_spatial_query], List.filter_sublist gdf, ?_⟩
  intro h
  have hall : ∀ r ∈ gdf, intersectsB r.geom g = true :=
    fun r hr => withinB_intersectsB (h r hr)
  simp [perform_spatial_query, List.filter_eq_self.mpr hall]

/-- Witness for C7: the target box fully contains the single input point,
and the full input comes back. -/
theorem C7_filter_subsequence_witness :
    perform_spatial_query [urbanPointFeature] jakartaRegion.geom
      "intersects" = .ok [urbanPointFeature] :=
  (C7_filter_subsequence [urbanPointFeature] jakartaRegion.geom).2.2.2.2
    (by norm_num [urbanPointFeature, jakartaRegion, withinB])

/-- C8: when either input collection (or both) is empty, the aggregation
returns the empty summary; the function is total, so no error is
raised. -/
theorem C8_empty_collections (t : Nat → Nat → Geometry → Geometry)
    (gdf_admin : GeoDF Region) (gdf_land_use : GeoDF Feature)
    (h : gdf_admin.rows = [] ∨ gdf_land_use.rows = []) :
    analyze_polygonal_overlap t gdf_admin gdf_land_use = [] := by
  rcases h with h | h
  · show analyzeAligned gdf_admin.rows _ = []
    rw [h]
    unfold analyzeAligned
    rw [sjoinInner_nil_right]
    rfl
  · show analyzeAligned _ (to_crs t gdf_admin.crs gdf_land_use).rows = []
    unfold to_crs
    rw [h]
    rfl

/-- Witness for C8 at two empty EPSG:4326 collections. -/
theorem C8_empty_collections_witness :
    analyze_polygonal_overlap reprojectId
      (⟨4326, []⟩ : GeoDF Region) (⟨4326, []⟩ : GeoDF Feature) = [] :=
  C8_empty_collections reprojectId ⟨4326, []⟩ ⟨4326, []⟩ (Or.inl rfl)

/-- C9: the orchestrator's configuration merge is a shallow
`dict.update`: when the caller's config carries the top-level key
`analysis` (whose default value is a nested mapping), the caller's value
replaces the entire default nested mapping; in particular, merging an
override whose `analysis` section repeats only `target_province` drops
the default's `connection_radius_km` (present, value 100, before the
merge) instead of deep-merging it. -/
theorem C9_shallow_config_update (c : List (String × CVal))
    (entry : String × CVal)
    (h : c.find? (fun kv => kv.1 == "analysis") = some entry) :
    lookupC (main_config_merge (some c)) "analysis" = some entry.2
  ∧ lookupC (main_config_merge (some analysisOverride)) "analysis" =
      some (.dict [("target_province", .s "JB")])
  ∧ lookupNested (main_config_merge (some analysisOverride)) "analysis"
      "connection_radius_km" = none
  ∧ lookupNested default_config "analysis" "connection_radius_km" =
      some (.n 100) := by
  refine ⟨?_, rfl, rfl, rfl⟩
  simp only [main_config_merge, dictUpdate, default_config, lookupC,
    List.map_cons, List.map_nil, List.find?, h]
  rfl

/-- Witness for C9 at the `analysisOverride` caller config, whose
`analysis` entry wholesale replaces the default section. -/
theorem C9_shallow_config_update_witness :
    lookupC (main_config_merge (some analysisOverride)) "analysis" =
      some (.dict [("target_province", .s "JB")]) :=
  (C9_shallow_config_update analysisOverride
    ("analysis", .dict [("target_province", .s "JB")]) rfl).1

/-- C10: the CLI-built configuration's `use_sample_data` value is `true`
for every parsed command line (`args.sample_data or True` is always
`True`), and the whole constructed configuration does not depend on the
`--sample-data` flag at all. -/
theorem C10_sample_data_flag_no_effect (sample_data : Bool)
    (province : String) :
    lookupC (build_my_config sample_data province) "use_sample_data" =
      some (.b true)
  ∧ build_my_config sample_data province =
      build_my_config true province := by
  constructor
  · simp [build_my_config, lookupC, List.find?]
  · simp [build_my_config]
